import Mathlib

/-!
Verification of the credits store of `@umituz/react-native-credits`
(`src/infrastructure/storage/CreditsStore.ts` and
`src/presentation/hooks/useCredits.ts`).

The Zustand store is shallowly embedded as a pure state machine.
Asynchronous I/O is made explicit:
  * the repository fetch (`repository.getBalance`) is a parameter of type
    `Except String (Option Int)` — `.ok none` means "user has no balance
    record" (treated as 0), `.ok (some v)` a record with `v` credits,
    `.error msg` a rejected promise with message `msg`;
  * `Date.now()` is a parameter `now : Int`;
  * the AsyncStorage cache (a single key `vivoim_credits_cache`) is a field
    `cache : Option CachedCredits` of the store state;
  * Firestore subscription handles returned by `onSnapshot` are modelled by
    an append-only list `handles : List Bool`, index = handle id, entry
    `true` = live, `false` = cancelled; `getFirestore()` availability is a
    boolean parameter `db`.
Operations that may reject (the store's `loadCredits` ends its catch block
with `throw error`) additionally return an `Option String`: `some msg`
models a rejected promise escaping to the caller.
-/

namespace CreditsModel

/-- Cache expiry window: 24 hours in milliseconds (`CACHE_EXPIRY_MS`). -/
def CACHE_EXPIRY_MS : Int := 24 * 60 * 60 * 1000

/-- The persisted cache record (`CachedCredits` in CreditsStore.ts). -/
structure CachedCredits where
  credits : Int
  timestamp : Int
  userId : String
deriving DecidableEq

/-- The in-memory Zustand state (`CreditsState` in CreditsStore.ts).
`listenerUnsubscribe` holds the id of the handle whose unsubscribe
function is stored, or `none`. -/
structure CreditsState where
  credits : Option Int
  loading : Bool
  error : Option String
  lastUpdated : Option Int
  isInitialized : Bool
  listenerUnsubscribe : Option Nat
  currentUserId : Option String
deriving DecidableEq

/-- The initial state (`initialState` in CreditsStore.ts): credits start
at `0`, not at `null`. -/
def initialState : CreditsState :=
  { credits := some 0
    loading := false
    error := none
    lastUpdated := none
    isInitialized := false
    listenerUnsubscribe := none
    currentUserId := none }

/-- The whole world the store manipulates: the Zustand state, the single
AsyncStorage cache slot, and the pool of subscription handles. -/
structure Store where
  st : CreditsState
  cache : Option CachedCredits
  handles : List Bool
deriving DecidableEq

/-- A fresh store: initial Zustand state, empty cache, no handles. -/
def initialStore : Store :=
  { st := initialState, cache := none, handles := [] }

/-- The cache write `saveToCache(userId, credits)`: overwrites the single
cache slot with a record stamped at `now`.  Storage failures are swallowed
by the source (`catch` with a log only), so the model keeps the success
path. -/
def saveToCache (userId : String) (credits : Int) (now : Int) (s : Store) : Store :=
  { s with cache := some { credits := credits, timestamp := now, userId := userId } }

/-- The cache read `loadFromCache(userId)`: returns the cached credits only
if the record exists, belongs to `userId`, and its age does not exceed
`CACHE_EXPIRY_MS`; otherwise `none`. -/
def loadFromCache (cache : Option CachedCredits) (userId : String) (now : Int) : Option Int :=
  match cache with
  | none => none
  | some cached =>
    if cached.userId ≠ userId then none
    else if now - cached.timestamp > CACHE_EXPIRY_MS then none
    else some cached.credits

/-- The action `setCredits(credits)`: unconditionally replaces the value,
stamps `lastUpdated`, clears `error`, then writes the cache when a
`currentUserId` is set. -/
def setCredits (credits : Int) (now : Int) (s : Store) : Store :=
  let s' : Store := { s with st := { s.st with
      credits := some credits, lastUpdated := some now, error := none } }
  match s.st.currentUserId with
  | some u => saveToCache u credits now s'
  | none => s'

/-- The action `addCredits(amount)`: no-op when `credits` is `null`;
otherwise adds `amount`, stamps `lastUpdated` (the source does NOT touch
`error` here), and writes the cache when a `currentUserId` is set. -/
def addCredits (amount : Int) (now : Int) (s : Store) : Store :=
  match s.st.credits with
  | none => s
  | some current =>
    let newCredits := current + amount
    let s' : Store := { s with st := { s.st with
        credits := some newCredits, lastUpdated := some now } }
    match s.st.currentUserId with
    | some u => saveToCache u newCredits now s'
    | none => s'

/-- The action `deductCredits(amount)`: no-op when `credits` is `null`;
otherwise sets `max(0, current - amount)`, stamps `lastUpdated` (the source
does NOT touch `error` here), and writes the cache when a `currentUserId`
is set. -/
def deductCredits (amount : Int) (now : Int) (s : Store) : Store :=
  match s.st.credits with
  | none => s
  | some current =>
    let newCredits := max 0 (current - amount)
    let s' : Store := { s with st := { s.st with
        credits := some newCredits, lastUpdated := some now } }
    match s.st.currentUserId with
    | some u => saveToCache u newCredits now s'
    | none => s'

/-- A sequence of `deductCredits` calls. -/
def deductSeq (amounts : List Int) (now : Int) (s : Store) : Store :=
  amounts.foldl (fun acc a => deductCredits a now acc) s

/-- The action `loadCredits(userId, repository, useCache)`.  The result's
second component is `some msg` when the promise rejects with `msg` (the
source rethrows after recording the error), and the third component is
`true` when the remote fetch (`repository.getBalance`) was actually
performed. -/
def loadCredits (userId : String) (fetch : Except String (Option Int))
    (useCache : Bool) (now : Int) (s : Store) : Store × Option String × Bool :=
  let remote : Store × Option String × Bool :=
    if userId = "" then
      ({ s with st := { s.st with credits := some 0, loading := false, error := none } },
       none, false)
    else
      let s1 : Store := { s with st := { s.st with loading := true, error := none } }
      match fetch with
      | .ok bal =>
        let credits := bal.getD 0
        let s2 := saveToCache userId credits now s1
        ({ s2 with st := { s2.st with
            credits := some credits, loading := false, error := none,
            lastUpdated := some now } }, none, true)
      | .error msg =>
        ({ s1 with st := { s1.st with loading := false, error := some msg } },
         some msg, true)
  if useCache then
    match loadFromCache s.cache userId now with
    | some cached =>
      ({ s with st := { s.st with credits := some cached, loading := false } },
       none, false)
    | none => remote
  else remote

/-- The hook's `loadCredits` (useCredits.ts): returns immediately when
`userId` is falsy (null or empty); otherwise delegates to the store's
`loadCredits` with `useCache = false` and does NOT catch its rejection. -/
def hookLoadCredits (userId : Option String) (fetch : Except String (Option Int))
    (now : Int) (s : Store) : Store × Option String :=
  match userId with
  | none => (s, none)
  | some u =>
    if u = "" then (s, none)
    else
      let r := loadCredits u fetch false now s
      (r.1, r.2.1)

/-- The hook's `checkCredits(required)`: true iff `credits` is non-null and
at least `required`. -/
def checkCredits (credits : Option Int) (required : Int) : Bool :=
  match credits with
  | none => false
  | some c => c ≥ required

/-- The action `startRealtimeListener(userId)`: first cancels any existing
subscription; then, if Firestore is unavailable (`db = false`), returns
WITHOUT clearing `listenerUnsubscribe`; otherwise installs a fresh live
handle and records its id. -/
def startRealtimeListener (db : Bool) (_userId : String) (s : Store) : Store :=
  let s1 : Store :=
    match s.st.listenerUnsubscribe with
    | some i => { s with handles := s.handles.set i false }
    | none => s
  if db then
    { s1 with
      handles := s1.handles ++ [true]
      st := { s1.st with listenerUnsubscribe := some s1.handles.length } }
  else s1

/-- A sequence of `n` calls to `startRealtimeListener` with Firestore
available. -/
def startN (userId : String) : Nat → Store → Store
  | 0, s => s
  | n + 1, s => startN userId n (startRealtimeListener true userId s)

/-- The `onSnapshot` success callback: when the snapshot exists, adopt
`data.credits ?? 0` and refresh the cache; otherwise set credits to `0`
and clear the cache. -/
def pushUpdate (userId : String) (snapExists : Bool) (dataCredits : Option Int)
    (now : Int) (s : Store) : Store :=
  if snapExists then
    let credits := dataCredits.getD 0
    saveToCache userId credits now
      { s with st := { s.st with credits := some credits, lastUpdated := some now } }
  else
    { s with st := { s.st with credits := some 0, lastUpdated := some now }
             cache := none }

/-- The action `stopRealtimeListener()`: cancels and clears the handle;
no-op when none is stored. -/
def stopRealtimeListener (s : Store) : Store :=
  match s.st.listenerUnsubscribe with
  | some i =>
    { s with handles := s.handles.set i false
             st := { s.st with listenerUnsubscribe := none } }
  | none => s

/-- The action `reset()`: stops the listener, clears the cache, and
restores the initial Zustand state. -/
def reset (s : Store) : Store :=
  let s1 := stopRealtimeListener s
  { s1 with cache := none, st := initialState }

/-- The action `initialize(userId, repository)` (named `initCredits` here).
Returns the resulting store together with the number of remote fetches
performed and the number of subscription starts attempted.  When already
initialized for the same user it returns immediately.  Otherwise it sets
`loading`/`currentUserId`, adopts a valid cache snapshot if present, runs
the store's `loadCredits` with `useCache = false`; a rejection is caught
(setting `error`, `loading := false`) and skips the listener start and the
`isInitialized := true` mark; on success the listener is started and
`isInitialized` is set.  The `finally` block clears `loading` in all
paths.  `initAfterCache` is the part of `initialize` that follows the
cache-adoption step (steps 2 and 3 plus the catch/finally blocks); it is
split out so the two phases can be reasoned about separately. -/
def initAfterCache (userId : String) (fetch : Except String (Option Int))
    (db : Bool) (now : Int) (s2 : Store) : Store × Nat × Nat :=
  let r := loadCredits userId fetch false now s2
  let fetches := if r.2.2 then 1 else 0
  match r.2.1 with
  | some msg =>
    let s3 := r.1
    (({ s3 with st := { s3.st with error := some msg, loading := false } }),
     fetches, 0)
  | none =>
    let s3 := startRealtimeListener db userId r.1
    (({ s3 with st := { s3.st with isInitialized := true, loading := false } }),
     fetches, 1)

def initCredits (userId : String) (fetch : Except String (Option Int))
    (db : Bool) (now : Int) (s : Store) : Store × Nat × Nat :=
  if s.st.isInitialized ∧ s.st.currentUserId = some userId then (s, 0, 0)
  else
    let s1 : Store := { s with st := { s.st with
        loading := true, error := none, currentUserId := some userId } }
    let s2 : Store :=
      match loadFromCache s1.cache userId now with
      | some cached =>
        { s1 with st := { s1.st with credits := some cached, loading := false } }
      | none => s1
    initAfterCache userId fetch db now s2

/-- Handle invariant: every live handle is the one recorded in
`listenerUnsubscribe`.  It implies at most one handle is live. -/
def HandleInv (s : Store) : Prop :=
  ∀ i, i < s.handles.length → s.handles[i]? = some true →
    s.st.listenerUnsubscribe = some i

instance (s : Store) : Decidable (HandleInv s) := by
  unfold HandleInv; infer_instance

/-- Non-negativity of the balance: holds vacuously when `credits` is
unset. -/
def CreditsNonneg (s : Store) : Prop := 0 ≤ s.st.credits.getD 0

instance (s : Store) : Decidable (CreditsNonneg s) := by
  unfold CreditsNonneg; infer_instance

/-- A store holding a balance of 50 with no error, as in the spec's
worked scenarios. -/
def store50 : Store :=
  { initialStore with st := { initialState with credits := some 50 } }

/-- A store holding a balance of 5 and a pending error message. -/
def storeWithError : Store :=
  { initialStore with st := { initialState with credits := some 5, error := some "boom" } }

/-- A cached snapshot for user `u1` captured at time 0. -/
def snapU1 : CachedCredits := { credits := 100, timestamp := 0, userId := "u1" }

/-- A store whose cache slot holds `snapU1`. -/
def storeCachedU1 : Store := { initialStore with cache := some snapU1 }

/-- A store with one live subscription handle recorded in
`listenerUnsubscribe`. -/
def storeWithSub : Store :=
  { st := { initialState with listenerUnsubscribe := some 0 }
    cache := none
    handles := [true] }

end CreditsModel

namespace CreditsModel

/-! Helper lemmas shared by several claims. -/

lemma deduct_some (a now : Int) (s : Store) (v : Int) (h : s.st.credits = some v) :
    (deductCredits a now s).st.credits = some (max 0 (v - a)) ∧
    (deductCredits a now s).st.error = s.st.error := by
  unfold deductCredits
  rw [h]
  cases hcu : s.st.currentUserId <;> simp [hcu, saveToCache]

lemma deductSeq_nonneg (now : Int) :
    ∀ (amounts : List Int) (s : Store) (v : Int), s.st.credits = some v → 0 ≤ v →
      ∃ w, (deductSeq amounts now s).st.credits = some w ∧ 0 ≤ w ∧
        (deductSeq amounts now s).st.error = s.st.error := by
  intro amounts
  induction amounts with
  | nil => intro s v h hv; exact ⟨v, h, hv, rfl⟩
  | cons a tl ih =>
    intro s v h hv
    have hd := deduct_some a now s v h
    obtain ⟨w, hw, hwn, he⟩ :=
      ih (deductCredits a now s) (max 0 (v - a)) hd.1 (le_max_left 0 _)
    have hstep : deductSeq (a :: tl) now s = deductSeq tl now (deductCredits a now s) := rfl
    exact ⟨w, by rw [hstep]; exact hw, hwn, by rw [hstep, he, hd.2]⟩

lemma loadFromCache_eq_some (cache : Option CachedCredits) (u : String) (now c : Int) :
    loadFromCache cache u now = some c ↔
      ∃ snap, cache = some snap ∧ snap.userId = u ∧
        now - snap.timestamp ≤ CACHE_EXPIRY_MS ∧ c = snap.credits := by
  cases cache with
  | none => simp [loadFromCache]
  | some snap =>
    simp only [loadFromCache, Option.some.injEq]
    by_cases h1 : snap.userId = u
    · by_cases h2 : now - snap.timestamp > CACHE_EXPIRY_MS
      · simp only [h1]
        constructor
        · intro hfalse
          exfalso
          simp [h2] at hfalse
        · rintro ⟨snap', hs, hu, ht, hc⟩
          cases hs
          omega
      · constructor
        · intro hsome
          refine ⟨snap, rfl, h1, by omega, ?_⟩
          simp [h1, h2] at hsome
          omega
        · rintro ⟨snap', hs, hu, ht, hc⟩
          cases hs
          simp [h1, h2, hc]
    · constructor
      · intro hfalse
        exfalso
        simp [h1] at hfalse
      · rintro ⟨snap', hs, hu, ht, hc⟩
        cases hs
        exact absurd hu h1

end CreditsModel

namespace CreditsModel

lemma loadCredits_nonneg (u : String) (fetch : Except String (Option Int))
    (useCache : Bool) (now : Int) (s : Store) (h : CreditsNonneg s)
    (hf : ∀ b, fetch = .ok (some b) → 0 ≤ b)
    (hc : ∀ c, s.cache = some c → 0 ≤ c.credits) :
    CreditsNonneg (loadCredits u fetch useCache now s).1 := by
  unfold loadCredits
  by_cases huc : useCache
  · simp only [huc, if_true]
    cases hlc : loadFromCache s.cache u now with
    | some cached =>
      obtain ⟨snap, hs, _, _, hcc⟩ := (loadFromCache_eq_some s.cache u now cached).mp hlc
      simp only [CreditsNonneg, Option.getD_some]
      exact hcc ▸ hc snap hs
    | none =>
      by_cases hu : u = ""
      · simp [hu, CreditsNonneg]
      · simp only [hu, if_false]
        cases fetch with
        | ok bal =>
          cases bal with
          | none => simp [saveToCache, CreditsNonneg]
          | some b =>
            simp only [saveToCache, CreditsNonneg, Option.getD_some]
            exact hf b rfl
        | error msg => exact h
  · simp only [huc, if_false]
    by_cases hu : u = ""
    · simp [hu, CreditsNonneg]
    · simp only [hu, if_false]
      cases fetch with
      | ok bal =>
        cases bal with
        | none => simp [saveToCache, CreditsNonneg]
        | some b =>
          simp only [saveToCache, CreditsNonneg, Option.getD_some]
          exact hf b rfl
      | error msg => exact h

end CreditsModel

namespace CreditsModel

lemma loadCredits_frame (u : String) (fetch : Except String (Option Int))
    (useCache : Bool) (now : Int) (s : Store) :
    (loadCredits u fetch useCache now s).1.handles = s.handles ∧
    (loadCredits u fetch useCache now s).1.st.listenerUnsubscribe
      = s.st.listenerUnsubscribe ∧
    (loadCredits u fetch useCache now s).1.st.currentUserId = s.st.currentUserId ∧
    (loadCredits u fetch useCache now s).1.st.isInitialized = s.st.isInitialized := by
  unfold loadCredits
  by_cases huc : useCache <;> by_cases hu : u = "" <;>
    cases hlc : loadFromCache s.cache u now <;>
    cases fetch <;>
    simp [huc, hu, hlc, saveToCache]

lemma loadCredits_ok_no_throw (u : String) (v : Option Int)
    (useCache : Bool) (now : Int) (s : Store) :
    (loadCredits u (.ok v) useCache now s).2.1 = none := by
  unfold loadCredits
  by_cases huc : useCache <;> by_cases hu : u = "" <;>
    cases hlc : loadFromCache s.cache u now <;>
    cases v <;>
    simp [huc, hu, hlc, saveToCache]

end CreditsModel

namespace CreditsModel

lemma initAfterCache_nonneg (u : String) (fetch : Except String (Option Int))
    (db : Bool) (now : Int) (s2 : Store) (h2 : CreditsNonneg s2)
    (hf : ∀ b, fetch = .ok (some b) → 0 ≤ b)
    (hc2 : ∀ c, s2.cache = some c → 0 ≤ c.credits) :
    CreditsNonneg (initAfterCache u fetch db now s2).1 := by
  unfold initAfterCache
  have hload := loadCredits_nonneg u fetch false now s2 h2 hf hc2
  cases hthrow : (loadCredits u fetch false now s2).2.1 with
  | some msg => simp only [hthrow]; exact hload
  | none =>
    simp only [hthrow, CreditsNonneg]
    unfold startRealtimeListener
    cases hlu : (loadCredits u fetch false now s2).1.st.listenerUnsubscribe <;>
      cases db <;> simp [hlu] <;> exact hload

lemma initCredits_nonneg (u : String) (fetch : Except String (Option Int))
    (db : Bool) (now : Int) (s : Store) (h : CreditsNonneg s)
    (hf : ∀ b, fetch = .ok (some b) → 0 ≤ b)
    (hc : ∀ c, s.cache = some c → 0 ≤ c.credits) :
    CreditsNonneg (initCredits u fetch db now s).1 := by
  unfold initCredits
  by_cases hdone : s.st.isInitialized ∧ s.st.currentUserId = some u
  · simp only [hdone, if_true]
    exact h
  · simp only [hdone, if_false]
    cases hlc : loadFromCache s.cache u now with
    | some cached =>
      obtain ⟨snap, hsnap, _, _, hcc⟩ :=
        (loadFromCache_eq_some s.cache u now cached).mp hlc
      simp only [hlc]
      refine initAfterCache_nonneg u fetch db now _ ?_ hf ?_
      · simp only [CreditsNonneg, Option.getD_some]
        exact hcc ▸ hc snap hsnap
      · exact hc
    | none =>
      simp only [hlc]
      exact initAfterCache_nonneg u fetch db now _ h hf hc

end CreditsModel

namespace CreditsModel

/-- C1: `deductCredits(amount)` sets `value` to `max(0, value - amount)`
when the value is set, is a no-op when it is unset, never signals an error
by itself (the `error` field is untouched), and along any sequence of
`deductCredits` calls starting from a non-negative value the value stays
non-negative. -/
theorem deduct_floor_c1 (a now : Int) (s : Store) :
    (∀ v, s.st.credits = some v →
      (deductCredits a now s).st.credits = some (max 0 (v - a)) ∧
      (deductCredits a now s).st.error = s.st.error) ∧
    (s.st.credits = none → deductCredits a now s = s) ∧
    (∀ (amounts : List Int) (v : Int), s.st.credits = some v → 0 ≤ v →
      ∃ w, (deductSeq amounts now s).st.credits = some w ∧ 0 ≤ w ∧
        (deductSeq amounts now s).st.error = s.st.error) := by
  refine ⟨fun v h => deduct_some a now s v h, fun h => ?_,
    fun amounts v h hv => deductSeq_nonneg now amounts s v h hv⟩
  unfold deductCredits
  rw [h]

/-- Witness for C1 at a concrete input: a balance of 50, deductions of 80
then 10. -/
theorem deduct_floor_c1_witness :
    (∃ w, (deductSeq [80, 10] 0 store50).st.credits = some w ∧ 0 ≤ w ∧
      (deductSeq [80, 10] 0 store50).st.error = store50.st.error) ∧
    (deductCredits 80 0 store50).st.credits = some (max 0 (50 - 80)) :=
  ⟨(deduct_floor_c1 0 0 store50).2.2 [80, 10] 50 rfl (by decide),
   ((deduct_floor_c1 80 0 store50).1 50 rfl).1⟩

/-- C10: in the initial state and immediately after `reset`, `credits`
equals `some 0` rather than `none`, so the hook's `checkCredits(required)`
returns `true` for every `required ≤ 0` even though no balance was ever
loaded. -/
theorem initial_zero_c10 :
    initialState.credits = some 0 ∧
    (∀ s : Store, (reset s).st.credits = some 0) ∧
    (∀ required : Int, required ≤ 0 →
      checkCredits initialState.credits required = true) ∧
    (∀ (s : Store) (required : Int), required ≤ 0 →
      checkCredits (reset s).st.credits required = true) := by
  refine ⟨rfl, fun s => rfl, fun r hr => ?_, fun s r hr => ?_⟩
  · simp only [initialState, checkCredits, ge_iff_le, decide_eq_true_eq]
    exact hr
  · have : (reset s).st.credits = some 0 := rfl
    rw [this]
    simp only [checkCredits, ge_iff_le, decide_eq_true_eq]
    exact hr

/-- Witness for C10 at concrete inputs. -/
theorem initial_zero_c10_witness :
    checkCredits initialState.credits 0 = true ∧
    checkCredits (reset storeWithSub).st.credits (-1) = true :=
  ⟨initial_zero_c10.2.2.1 0 (by decide),
   initial_zero_c10.2.2.2 storeWithSub (-1) (by decide)⟩

/-- C8 counterexample: from a state with a pending error, `addCredits` and
`deductCredits` leave `error` untouched, while `setCredits` clears it — so
they do NOT have the same side effects as `setCredits`. -/
theorem side_effects_c8_cex :
    storeWithError.st.error = some "boom" ∧
    (addCredits 1 0 storeWithError).st.error = some "boom" ∧
    (deductCredits 1 0 storeWithError).st.error = some "boom" ∧
    (setCredits 6 0 storeWithError).st.error = none := by decide

/-- C8 amended: `addCredits` and `deductCredits` stamp `lastUpdated` to now
exactly as `setCredits` does, but unlike `setCredits` they leave the
`error` field unchanged rather than clearing it. -/
theorem side_effects_c8 (a now : Int) (s : Store) (v : Int)
    (h : s.st.credits = some v) :
    (addCredits a now s).st.lastUpdated = some now ∧
    (addCredits a now s).st.error = s.st.error ∧
    (addCredits a now s).st.credits = some (v + a) ∧
    (deductCredits a now s).st.lastUpdated = some now ∧
    (deductCredits a now s).st.error = s.st.error ∧
    (setCredits a now s).st.lastUpdated = some now ∧
    (setCredits a now s).st.error = none := by
  unfold addCredits deductCredits setCredits
  rw [h]
  cases hcu : s.st.currentUserId <;> simp [hcu, saveToCache]

/-- Witness for the amended C8 at a concrete input. -/
theorem side_effects_c8_witness :
    (addCredits 1 0 storeWithError).st.lastUpdated = some 0 ∧
    (addCredits 1 0 storeWithError).st.error = storeWithError.st.error ∧
    (addCredits 1 0 storeWithError).st.credits = some (5 + 1) ∧
    (deductCredits 1 0 storeWithError).st.lastUpdated = some 0 ∧
    (deductCredits 1 0 storeWithError).st.error = storeWithError.st.error ∧
    (setCredits 1 0 storeWithError).st.lastUpdated = some 0 ∧
    (setCredits 1 0 storeWithError).st.error = none :=
  side_effects_c8 1 0 storeWithError 5 rfl

/-- C2 counterexample: `setCredits` with a negative argument drives the
balance negative even though it was non-negative before, so non-negativity
is not preserved for all inputs. -/
theorem nonneg_c2_cex :
    initialStore.st.credits = some 0 ∧
    (setCredits (-1) 0 initialStore).st.credits = some (-1) ∧
    (addCredits (-7) 0 initialStore).st.credits = some (-7) := by decide

/-- C2 amended: the balance is never driven negative by `deductCredits`,
`reset`, the listener management operations, or by any operation whose
numeric inputs are non-negative: `setCredits v` with `0 ≤ v`,
`addCredits a` with `0 ≤ a`, `loadCredits`/`initCredits` when the fetched
balance and any cached snapshot are non-negative, and a subscription push
whose payload is non-negative.  With negative arguments `setCredits` and
`addCredits` can produce a negative balance (see the counterexample). -/
theorem nonneg_c2 (now : Int) (s : Store) (h : CreditsNonneg s) :
    (∀ v, 0 ≤ v → CreditsNonneg (setCredits v now s)) ∧
    (∀ a, 0 ≤ a → CreditsNonneg (addCredits a now s)) ∧
    (∀ a, CreditsNonneg (deductCredits a now s)) ∧
    (∀ (u : String) (fetch : Except String (Option Int)) (useCache : Bool),
      (∀ b, fetch = .ok (some b) → 0 ≤ b) →
      (∀ c, s.cache = some c → 0 ≤ c.credits) →
      CreditsNonneg (loadCredits u fetch useCache now s).1) ∧
    (∀ (u : String) (snapExists : Bool) (d : Option Int),
      (∀ b, d = some b → 0 ≤ b) →
      CreditsNonneg (pushUpdate u snapExists d now s)) ∧
    CreditsNonneg (reset s) ∧
    (∀ (u : String) (db : Bool), CreditsNonneg (startRealtimeListener db u s)) ∧
    CreditsNonneg (stopRealtimeListener s) ∧
    (∀ (u : String) (fetch : Except String (Option Int)) (db : Bool),
      (∀ b, fetch = .ok (some b) → 0 ≤ b) →
      (∀ c, s.cache = some c → 0 ≤ c.credits) →
      CreditsNonneg (initCredits u fetch db now s).1) := by
  refine ⟨?_, ?_, ?_, ?_, ?_, ?_, ?_, ?_, ?_⟩
  · intro v hv
    unfold setCredits
    cases hcu : s.st.currentUserId <;> simp [hcu, saveToCache, CreditsNonneg, hv]
  · intro a ha
    unfold addCredits
    cases hcr : s.st.credits with
    | none => exact h
    | some c =>
      have hc : 0 ≤ c := by
        simpa [CreditsNonneg, hcr] using h
      cases hcu : s.st.currentUserId <;>
        simp [hcu, saveToCache, CreditsNonneg] <;> omega
  · intro a
    unfold deductCredits
    cases hcr : s.st.credits with
    | none => exact h
    | some c =>
      cases hcu : s.st.currentUserId <;>
        simp [hcu, saveToCache, CreditsNonneg, le_max_left]
  · intro u fetch useCache hf hc
    exact loadCredits_nonneg u fetch useCache now s h hf hc
  · intro u snapExists d hd
    unfold pushUpdate
    cases hse : snapExists with
    | false => simp [CreditsNonneg]
    | true =>
      cases d with
      | none => simp [saveToCache, CreditsNonneg]
      | some b =>
        simp only [if_true, saveToCache, CreditsNonneg, Option.getD_some]
        exact hd b rfl
  · simp [reset, stopRealtimeListener, initialState, CreditsNonneg]
  · intro u db
    unfold startRealtimeListener
    cases hlu : s.st.listenerUnsubscribe <;> cases db <;> simp [hlu] <;> exact h
  · unfold stopRealtimeListener
    cases hlu : s.st.listenerUnsubscribe <;> simp [hlu] <;> exact h
  · intro u fetch db hf hc
    exact initCredits_nonneg u fetch db now s h hf hc

/-- Witness for the amended C2 at concrete inputs. -/
theorem nonneg_c2_witness :
    CreditsNonneg (deductCredits 80 0 store50) ∧
    CreditsNonneg (setCredits 3 0 initialStore) ∧
    CreditsNonneg (reset storeWithSub) :=
  ⟨(nonneg_c2 0 store50 (by decide)).2.2.1 80,
   (nonneg_c2 0 initialStore (by decide)).1 3 (by decide),
   (nonneg_c2 0 storeWithSub (by decide)).2.2.2.2.2.1⟩

end CreditsModel

namespace CreditsModel

/-- C4: from any state with a known value `v`, a `loadCredits` forced
reload whose remote fetch fails leaves `value` at `v`, sets `loading` to
false, and records the failure description in `error`. -/
theorem failed_reload_c4 (s : Store) (u msg : String) (now : Int) (v : Int)
    (hu : u ≠ "") (hv : s.st.credits = some v) :
    (loadCredits u (.error msg) false now s).1.st.credits = some v ∧
    (loadCredits u (.error msg) false now s).1.st.loading = false ∧
    (loadCredits u (.error msg) false now s).1.st.error = some msg := by
  unfold loadCredits
  simp [hu, hv]

/-- Witness for C4: a balance of 50 survives a failed forced reload. -/
theorem failed_reload_c4_witness :
    (loadCredits "u1" (.error "network down") false 0 store50).1.st.credits
      = some 50 ∧
    (loadCredits "u1" (.error "network down") false 0 store50).1.st.loading
      = false ∧
    (loadCredits "u1" (.error "network down") false 0 store50).1.st.error
      = some "network down" :=
  failed_reload_c4 store50 "u1" "network down" 0 50 (by decide) rfl

/-- C3 counterexample: the store's `loadCredits` rethrows after recording
the error and the hook's `loadCredits` does not catch, so the failure IS
propagated as a rejected promise to callers of the hook's `loadCredits`,
contradicting the claim that it surfaces only through the `error` field. -/
theorem hook_rethrow_c3_cex :
    (hookLoadCredits (some "u1") (.error "network down") 0 initialStore).2
      = some "network down" := by decide

/-- C3 amended: a remote-fetch failure inside `loadCredits` is surfaced
through the `error` field (with `loading` false and the previous value
retained), and in addition the rejection propagates to callers of the
hook's `loadCredits`, which does not catch the store's rethrow; only
`initialize` swallows it. -/
theorem hook_error_c3 (s : Store) (u msg : String) (now : Int) (hu : u ≠ "") :
    (hookLoadCredits (some u) (.error msg) now s).1.st.error = some msg ∧
    (hookLoadCredits (some u) (.error msg) now s).1.st.loading = false ∧
    (hookLoadCredits (some u) (.error msg) now s).1.st.credits = s.st.credits ∧
    (hookLoadCredits (some u) (.error msg) now s).2 = some msg := by
  unfold hookLoadCredits loadCredits
  simp [hu]

/-- Witness for the amended C3 at a concrete input. -/
theorem hook_error_c3_witness :
    (hookLoadCredits (some "u1") (.error "boom") 0 store50).1.st.error
      = some "boom" ∧
    (hookLoadCredits (some "u1") (.error "boom") 0 store50).1.st.loading
      = false ∧
    (hookLoadCredits (some "u1") (.error "boom") 0 store50).1.st.credits
      = store50.st.credits ∧
    (hookLoadCredits (some "u1") (.error "boom") 0 store50).2 = some "boom" :=
  hook_error_c3 store50 "u1" "boom" 0 (by decide)

/-- C5: `loadFromCache` adopts a snapshot exactly when it exists, carries
the requested `userId`, and its age `now - timestamp` does not exceed the
24-hour expiry window (returning its credits); a wrong-user or expired
snapshot is never adopted, and `loadCredits` with `useCache = true` then
behaves exactly as if no snapshot existed, falling through to the remote
fetch. -/
theorem cache_validation_c5 (cache : Option CachedCredits) (u : String) (now : Int) :
    (∀ c, loadFromCache cache u now = some c ↔
      ∃ snap, cache = some snap ∧ snap.userId = u ∧
        now - snap.timestamp ≤ CACHE_EXPIRY_MS ∧ c = snap.credits) ∧
    (∀ snap, cache = some snap →
      (snap.userId ≠ u ∨ now - snap.timestamp > CACHE_EXPIRY_MS) →
      loadFromCache cache u now = none) ∧
    (∀ (s : Store) (fetch : Except String (Option Int)), s.cache = cache →
      loadFromCache cache u now = none →
      (loadCredits u fetch true now s).1.st
        = (loadCredits u fetch true now { s with cache := none }).1.st ∧
      (loadCredits u fetch true now s).2
        = (loadCredits u fetch true now { s with cache := none }).2) := by
  refine ⟨fun c => loadFromCache_eq_some cache u now c, ?_, ?_⟩
  · rintro snap rfl hbad
    cases hlc : loadFromCache (some snap) u now with
    | none => rfl
    | some c =>
      obtain ⟨snap', hs, hu', ht, _⟩ :=
        (loadFromCache_eq_some (some snap) u now c).mp hlc
      cases hs
      rcases hbad with hbad | hbad
      · exact absurd hu' hbad
      · omega
  · rintro s fetch rfl hnone
    have hnone' : loadFromCache (none : Option CachedCredits) u now = none := rfl
    unfold loadCredits
    simp only [hnone, hnone', if_true]
    by_cases hu : u = "" <;> cases fetch <;> simp [hu, saveToCache]

/-- Witness for C5: a snapshot for user `u1` is rejected for user `u2`,
and the cached and cache-free stores then load identically. -/
theorem cache_validation_c5_witness :
    loadFromCache (some snapU1) "u2" 0 = none ∧
    (loadCredits "u2" (.ok (some 7)) true 0 storeCachedU1).1.st
      = (loadCredits "u2" (.ok (some 7)) true 0
          { storeCachedU1 with cache := none }).1.st :=
  ⟨(cache_validation_c5 (some snapU1) "u2" 0).2.1 snapU1 rfl (Or.inl (by decide)),
   ((cache_validation_c5 (some snapU1) "u2" 0).2.2 storeCachedU1 (.ok (some 7)) rfl
     ((cache_validation_c5 (some snapU1) "u2" 0).2.1 snapU1 rfl
       (Or.inl (by decide)))).1⟩

end CreditsModel

namespace CreditsModel

lemma startRealtime_frame (db : Bool) (u : String) (s : Store) :
    (startRealtimeListener db u s).st.currentUserId = s.st.currentUserId ∧
    (startRealtimeListener db u s).st.isInitialized = s.st.isInitialized ∧
    (startRealtimeListener db u s).st.credits = s.st.credits := by
  unfold startRealtimeListener
  cases hlu : s.st.listenerUnsubscribe <;> cases db <;> simp [hlu]

lemma initCredits_done (u : String) (fetch : Except String (Option Int))
    (db : Bool) (now : Int) (s : Store)
    (h1 : s.st.isInitialized = true) (h2 : s.st.currentUserId = some u) :
    initCredits u fetch db now s = (s, 0, 0) := by
  unfold initCredits
  rw [if_pos ⟨h1, h2⟩]

lemma initAfterCache_ok (u : String) (v : Option Int) (db : Bool) (now : Int) (S : Store)
    (hcu : S.st.currentUserId = some u) :
    (initAfterCache u (.ok v) db now S).1.st.isInitialized = true ∧
    (initAfterCache u (.ok v) db now S).1.st.currentUserId = some u ∧
    (initAfterCache u (.ok v) db now S).2.1 ≤ 1 ∧
    (initAfterCache u (.ok v) db now S).2.2 ≤ 1 := by
  unfold initAfterCache
  have hnt := loadCredits_ok_no_throw u v false now S
  have hframe := loadCredits_frame u (.ok v) false now S
  have hsr := startRealtime_frame db u (loadCredits u (.ok v) false now S).1
  simp only [hnt]
  refine ⟨by simp, ?_, ?_, by simp⟩
  · show (startRealtimeListener db u
        (loadCredits u (.ok v) false now S).1).st.currentUserId = some u
    rw [hsr.1, hframe.2.2.1, hcu]
  · cases hfp : (loadCredits u (.ok v) false now S).2.2 <;> simp [hfp]

lemma initCredits_ok (u : String) (v : Option Int) (db : Bool) (now : Int) (s : Store)
    (h : ¬(s.st.isInitialized = true ∧ s.st.currentUserId = some u)) :
    (initCredits u (.ok v) db now s).1.st.isInitialized = true ∧
    (initCredits u (.ok v) db now s).1.st.currentUserId = some u ∧
    (initCredits u (.ok v) db now s).2.1 ≤ 1 ∧
    (initCredits u (.ok v) db now s).2.2 ≤ 1 := by
  unfold initCredits
  rw [if_neg h]
  cases hlc : loadFromCache s.cache u now with
  | some cached =>
    simp only [hlc]
    exact initAfterCache_ok u v db now _ rfl
  | none =>
    simp only [hlc]
    exact initAfterCache_ok u v db now _ rfl

end CreditsModel

namespace CreditsModel

/-- C6: initialize is idempotent per user — after a first successful
`initialize(u, repo)` (any fetch outcome `.ok v`), a second
`initialize(u, ...)` returns the store unchanged with zero fetches and
zero subscription starts, so the two calls together perform at most one
remote fetch and at most one subscription start. -/
theorem idempotent_init_c6 (s : Store) (u : String) (v : Option Int)
    (fetch2 : Except String (Option Int)) (db db2 : Bool) (now now2 : Int) :
    initCredits u fetch2 db2 now2 (initCredits u (.ok v) db now s).1
      = ((initCredits u (.ok v) db now s).1, 0, 0) ∧
    (initCredits u (.ok v) db now s).2.1
      + (initCredits u fetch2 db2 now2 (initCredits u (.ok v) db now s).1).2.1
      ≤ 1 ∧
    (initCredits u (.ok v) db now s).2.2
      + (initCredits u fetch2 db2 now2 (initCredits u (.ok v) db now s).1).2.2
      ≤ 1 := by
  by_cases hdone : s.st.isInitialized = true ∧ s.st.currentUserId = some u
  · have h1 : initCredits u (.ok v) db now s = (s, 0, 0) :=
      initCredits_done u (.ok v) db now s hdone.1 hdone.2
    have h2 : initCredits u fetch2 db2 now2 s = (s, 0, 0) :=
      initCredits_done u fetch2 db2 now2 s hdone.1 hdone.2
    rw [h1]
    exact ⟨h2, by rw [h2]; simp, by rw [h2]; simp⟩
  · obtain ⟨hi, hcu, hf1, hb1⟩ := initCredits_ok u v db now s hdone
    have h2 := initCredits_done u fetch2 db2 now2 _ hi hcu
    rw [h2]
    exact ⟨rfl, by simpa using hf1, by simpa using hb1⟩

end CreditsModel

namespace CreditsModel

lemma count_true_zero : ∀ (l : List Bool),
    (∀ i, i < l.length → l[i]? = some false) → l.count true = 0
  | [], _ => rfl
  | b :: tl, h => by
    have h0 := h 0 (by simp)
    simp only [List.getElem?_cons_zero, Option.some.injEq] at h0
    subst h0
    have htl : ∀ i, i < tl.length → tl[i]? = some false := fun i hi => by
      have := h (i + 1) (by simpa using Nat.succ_lt_succ hi)
      simpa using this
    simp [List.count_cons, count_true_zero tl htl]

lemma count_true_one : ∀ (l : List Bool) (k : Nat), l[k]? = some true →
    (∀ i, i < l.length → i ≠ k → l[i]? = some false) → l.count true = 1
  | [], k, hk, _ => by simp at hk
  | b :: tl, 0, hk, h => by
    simp only [List.getElem?_cons_zero, Option.some.injEq] at hk
    subst hk
    have htl : ∀ i, i < tl.length → tl[i]? = some false := fun i hi => by
      have := h (i + 1) (by simpa using Nat.succ_lt_succ hi) (by omega)
      simpa using this
    simp [List.count_cons, count_true_zero tl htl]
  | b :: tl, k + 1, hk, h => by
    simp only [List.getElem?_cons_succ] at hk
    have h0 := h 0 (by simp) (by omega)
    simp only [List.getElem?_cons_zero, Option.some.injEq] at h0
    subst h0
    have htl : ∀ i, i < tl.length → i ≠ k → tl[i]? = some false := fun i hi hik => by
      have := h (i + 1) (by simpa using Nat.succ_lt_succ hi) (by omega)
      simpa using this
    simp [List.count_cons, count_true_one tl k hk htl]

end CreditsModel

namespace CreditsModel

lemma handle_dead_of_not_recorded (s : Store) (hInv : HandleInv s) (j : Nat)
    (hj : j < s.handles.length) (hne : s.st.listenerUnsubscribe ≠ some j) :
    s.handles[j]? = some false := by
  have hg : s.handles[j]? = some s.handles[j] := List.getElem?_eq_getElem hj
  cases hb : s.handles[j] with
  | false => rw [hg, hb]
  | true => exact absurd (hInv j hj (by rw [hg, hb])) hne

lemma cancel_count_zero (s : Store) (i : Nat) (hInv : HandleInv s)
    (hls : s.st.listenerUnsubscribe = some i) :
    (s.handles.set i false).count true = 0 := by
  apply count_true_zero
  intro j hj
  have hj' : j < s.handles.length := by simpa using hj
  by_cases hji : j = i
  · subst hji
    exact List.getElem?_set_self hj'
  · rw [List.getElem?_set_ne (fun h => hji h.symm)]
    refine handle_dead_of_not_recorded s hInv j hj' ?_
    rw [hls]
    intro h
    exact hji (Option.some.inj h).symm

lemma startRealtime_true_step (u : String) (s : Store) (hInv : HandleInv s) :
    (startRealtimeListener true u s).handles.length = s.handles.length + 1 ∧
    (startRealtimeListener true u s).st.listenerUnsubscribe
      = some s.handles.length ∧
    (∀ j, j < s.handles.length →
      (startRealtimeListener true u s).handles[j]? = some false) ∧
    (startRealtimeListener true u s).handles[s.handles.length]? = some true ∧
    HandleInv (startRealtimeListener true u s) := by
  unfold startRealtimeListener
  cases hls : s.st.listenerUnsubscribe with
  | none =>
    simp only [hls, if_true]
    refine ⟨by simp, by simp, ?_, ?_, ?_⟩
    · intro j hj
      show (s.handles ++ [true])[j]? = some false
      rw [List.getElem?_append_left hj]
      exact handle_dead_of_not_recorded s hInv j hj (by rw [hls]; simp)
    · show (s.handles ++ [true])[s.handles.length]? = some true
      exact List.getElem?_concat_length _ _
    · intro j hjlen hjtrue
      simp only at hjtrue ⊢
      by_cases hj : j < s.handles.length
      · rw [List.getElem?_append_left hj] at hjtrue
        have := handle_dead_of_not_recorded s hInv j hj (by rw [hls]; simp)
        rw [this] at hjtrue
        exact absurd (Option.some.inj hjtrue) (by simp)
      · have hjl : j = s.handles.length := by
          simp only [List.length_append, List.length_singleton] at hjlen
          omega
        rw [hjl]
  | some i =>
    simp only [hls, if_true]
    refine ⟨by simp, by simp, ?_, ?_, ?_⟩
    · intro j hj
      show ((s.handles.set i false) ++ [true])[j]? = some false
      rw [List.getElem?_append_left (by simpa using hj)]
      by_cases hji : j = i
      · subst hji
        exact List.getElem?_set_self hj
      · rw [List.getElem?_set_ne (fun h => hji h.symm)]
        refine handle_dead_of_not_recorded s hInv j hj ?_
        rw [hls]
        intro h
        exact hji (Option.some.inj h).symm
    · show ((s.handles.set i false) ++ [true])[s.handles.length]? = some true
      have := List.getElem?_concat_length (s.handles.set i false) true
      simp only [List.length_set] at this
      exact this
    · intro j hjlen hjtrue
      simp only at hjtrue ⊢
      by_cases hj : j < s.handles.length
      · rw [List.getElem?_append_left (by simpa using hj)] at hjtrue
        by_cases hji : j = i
        · subst hji
          rw [List.getElem?_set_self hj] at hjtrue
          exact absurd (Option.some.inj hjtrue) (by simp)
        · rw [List.getElem?_set_ne (fun h => hji h.symm)] at hjtrue
          have := handle_dead_of_not_recorded s hInv j hj
            (by rw [hls]; intro h; exact hji (Option.some.inj h).symm)
          rw [this] at hjtrue
          exact absurd (Option.some.inj hjtrue) (by simp)
      · have hjl : j = s.handles.length := by
          simp only [List.length_append, List.length_set, List.length_singleton] at hjlen
          omega
        rw [hjl]
        simp

end CreditsModel

namespace CreditsModel

lemma startN_props (u : String) : ∀ (N : Nat) (s : Store), HandleInv s → 1 ≤ N →
    (startN u N s).handles.length = s.handles.length + N ∧
    (startN u N s).st.listenerUnsubscribe
      = some ((startN u N s).handles.length - 1) ∧
    (startN u N s).handles[(startN u N s).handles.length - 1]? = some true ∧
    (∀ j, j < (startN u N s).handles.length - 1 →
      (startN u N s).handles[j]? = some false) ∧
    HandleInv (startN u N s) := by
  intro N
  induction N with
  | zero => intro s _ h1; omega
  | succ n ih =>
    intro s hInv _
    have hstep := startRealtime_true_step u s hInv
    by_cases hn : 1 ≤ n
    · have hIH := ih (startRealtimeListener true u s) hstep.2.2.2.2 hn
      refine ⟨?_, hIH.2.1, hIH.2.2.1, hIH.2.2.2.1, hIH.2.2.2.2⟩
      show (startN u n (startRealtimeListener true u s)).handles.length
        = s.handles.length + (n + 1)
      rw [hIH.1, hstep.1]
      omega
    · have hn0 : n = 0 := by omega
      subst hn0
      refine ⟨hstep.1, ?_, ?_, ?_, hstep.2.2.2.2⟩
      · show (startRealtimeListener true u s).st.listenerUnsubscribe
          = some ((startRealtimeListener true u s).handles.length - 1)
        rw [hstep.2.1, hstep.1]
        simp
      · show (startRealtimeListener true u s).handles[
          (startRealtimeListener true u s).handles.length - 1]? = some true
        rw [hstep.1]
        simpa using hstep.2.2.2.1
      · intro j hj
        have hj2 : j < (startRealtimeListener true u s).handles.length - 1 := hj
        have hj' : j < s.handles.length := by
          rw [hstep.1] at hj2
          omega
        exact hstep.2.2.1 j hj'

/-- C7: starting from any store satisfying the handle invariant, after
`N ≥ 1` calls to `startRealtimeListener` with Firestore available, exactly
one subscription handle is live (the most recently created one, recorded
in `listenerUnsubscribe`), `N` handles were created in total, and every
handle other than the last — including all `N - 1` created by the earlier
calls — has been cancelled. -/
theorem single_subscription_c7 (s : Store) (u : String) (N : Nat)
    (hInv : HandleInv s) (hN : 1 ≤ N) :
    (startN u N s).handles.count true = 1 ∧
    (startN u N s).handles.length = s.handles.length + N ∧
    (startN u N s).st.listenerUnsubscribe
      = some ((startN u N s).handles.length - 1) ∧
    (startN u N s).handles[(startN u N s).handles.length - 1]? = some true ∧
    (∀ i, s.handles.length ≤ i → i + 1 < (startN u N s).handles.length →
      (startN u N s).handles[i]? = some false) := by
  obtain ⟨hlen, hls, hlast, hdead, hInv'⟩ := startN_props u N s hInv hN
  refine ⟨?_, hlen, hls, hlast, fun i h1 h2 => hdead i (by omega)⟩
  exact count_true_one _ _ hlast (fun i hi hne => hdead i (by omega))

/-- Witness for C7: three listener starts on a fresh store leave exactly
one live handle among three created. -/
theorem single_subscription_c7_witness :
    (startN "u1" 3 initialStore).handles.count true = 1 ∧
    (startN "u1" 3 initialStore).handles.length
      = initialStore.handles.length + 3 :=
  ⟨(single_subscription_c7 initialStore "u1" 3 (by decide) (by decide)).1,
   (single_subscription_c7 initialStore "u1" 3 (by decide) (by decide)).2.1⟩

end CreditsModel

namespace CreditsModel

lemma initAfterCache_no_db (u : String) (v : Option Int) (now : Int) (S : Store)
    (i : Nat) (hlS : S.st.listenerUnsubscribe = some i) :
    (initAfterCache u (.ok v) false now S).1.st.isInitialized = true ∧
    (initAfterCache u (.ok v) false now S).1.st.listenerUnsubscribe = some i ∧
    (initAfterCache u (.ok v) false now S).1.handles = S.handles.set i false := by
  unfold initAfterCache
  have hnt := loadCredits_ok_no_throw u v false now S
  have hframe := loadCredits_frame u (.ok v) false now S
  have hl : (loadCredits u (.ok v) false now S).1.st.listenerUnsubscribe = some i := by
    rw [hframe.2.1, hlS]
  have hh : (loadCredits u (.ok v) false now S).1.handles = S.handles := hframe.1
  simp only [hnt]
  unfold startRealtimeListener
  simp only [hl, hh, Bool.false_eq_true, if_false]
  exact ⟨trivial, trivial, trivial⟩

/-- C9: when Firestore is unavailable, `startRealtimeListener` cancels the
existing subscription and returns without installing a new one, leaving
the cancelled handle's id in `listenerUnsubscribe`: the field is non-null
while zero subscriptions are live.  An `initialize` that reaches this path
(fetch succeeds, Firestore unavailable) still sets `isInitialized` to
true, with the stale handle id still recorded and no live subscription. -/
theorem no_db_subscription_c9 (s : Store) (u : String) (i : Nat)
    (v : Option Int) (now : Int)
    (hInv : HandleInv s) (hls : s.st.listenerUnsubscribe = some i)
    (hil : i < s.handles.length)
    (hnotdone : ¬(s.st.isInitialized = true ∧ s.st.currentUserId = some u)) :
    (startRealtimeListener false u s).st.listenerUnsubscribe = some i ∧
    (startRealtimeListener false u s).handles[i]? = some false ∧
    (startRealtimeListener false u s).handles.count true = 0 ∧
    (initCredits u (.ok v) false now s).1.st.isInitialized = true ∧
    (initCredits u (.ok v) false now s).1.st.listenerUnsubscribe = some i ∧
    (initCredits u (.ok v) false now s).1.handles.count true = 0 := by
  have hcancel : (s.handles.set i false).count true = 0 :=
    cancel_count_zero s i hInv hls
  have hstart : startRealtimeListener false u s
      = { s with handles := s.handles.set i false } := by
    unfold startRealtimeListener
    simp only [hls, Bool.false_eq_true, if_false]
  refine ⟨?_, ?_, ?_, ?_, ?_, ?_⟩
  · rw [hstart]; exact hls
  · rw [hstart]; exact List.getElem?_set_self hil
  · rw [hstart]; exact hcancel
  · unfold initCredits
    rw [if_neg hnotdone]
    cases hlc : loadFromCache s.cache u now <;>
      simp only [hlc] <;> exact (initAfterCache_no_db u v now _ i (by exact hls)).1
  · unfold initCredits
    rw [if_neg hnotdone]
    cases hlc : loadFromCache s.cache u now <;>
      simp only [hlc] <;> exact (initAfterCache_no_db u v now _ i (by exact hls)).2.1
  · unfold initCredits
    rw [if_neg hnotdone]
    cases hlc : loadFromCache s.cache u now <;>
      simp only [hlc] <;>
      · rw [(initAfterCache_no_db u v now _ i (by exact hls)).2.2]
        exact hcancel

/-- Witness for C9: a store with one live subscription and Firestore
unavailable. -/
theorem no_db_subscription_c9_witness :
    (startRealtimeListener false "u1" storeWithSub).handles.count true = 0 ∧
    (initCredits "u1" (.ok (some 5)) false 0 storeWithSub).1.st.isInitialized
      = true ∧
    (initCredits "u1" (.ok (some 5)) false 0 storeWithSub).1.st.listenerUnsubscribe
      = some 0 :=
  ⟨(no_db_subscription_c9 storeWithSub "u1" 0 (some 5) 0 (by decide) rfl
      (by decide) (by decide)).2.2.1,
   (no_db_subscription_c9 storeWithSub "u1" 0 (some 5) 0 (by decide) rfl
      (by decide) (by decide)).2.2.2.1,
   (no_db_subscription_c9 storeWithSub "u1" 0 (some 5) 0 (by decide) rfl
      (by decide) (by decide)).2.2.2.2.1⟩

end CreditsModel
